import Mathlib

/-
Shallow embedding of the steamshare repository's Steam inventory API route
(src/unnamed/part_000, a Next.js route handler) together with proofs of the
specification's claims about it.

Modelling conventions for the JavaScript/TypeScript source:
- Strings coming from JSON are modelled as `String`; the route only ever
  tests them for truthiness, and both the absent value and the empty string
  are falsy, so "" stands for absent-or-empty.
- Fields the route tests with `typeof x === 'number'` are `Option Int`
  (none = absent or not a number at runtime).
- Fields the route tests with `Array.isArray` are `Option (List _)`
  (none = absent or not an array at runtime).
- Query parameters and cookies are `Option String` (none = parameter absent);
  JavaScript truthiness treats `some ""` like none where the source does.
- `parseInt`, `encodeURIComponent`, `Number.prototype.toString` and the
  string comparison used by `localeCompare` are embedded below as executable
  functions; `localeCompare` is modelled as lexicographic comparison by code
  point, the reading the specification itself takes ("descending
  lexicographic order ... treated as an opaque rarity proxy").
- `Array.prototype.sort` is required to be stable (ECMA-262); a stable sort
  consistent with a given comparator has a unique result, so it is embedded
  as a stable insertion sort over the comparator.
- External collaborators that are not part of the repository's source
  (`JSON.parse` of the cookie and `validateSteamSession`) are parameters of
  the handler; the network call's outcome is likewise a parameter.
-/

/-- Lexicographic order on character lists by code point: the embedding of
the string ordering underlying the route's `localeCompare` calls. -/
def charListLt : List Char → List Char → Bool
  | _, [] => false
  | [], _ :: _ => true
  | a :: as, b :: bs => if a < b then true else if b < a then false else charListLt as bs

/-- Lexicographic order on strings by code point. -/
def strLt (a b : String) : Bool := charListLt a.data b.data

/-- JavaScript `a.localeCompare(b)` as used by the route, modelled as plain
lexicographic comparison returning the sign the comparator contract needs. -/
def localeCompare (a b : String) : Int :=
  if strLt a b then -1 else if strLt b a then 1 else 0

/-- Decimal digit character (only applied to values below ten). -/
def digitCharJs (n : Nat) : Char :=
  match n with
  | 0 => '0' | 1 => '1' | 2 => '2' | 3 => '3' | 4 => '4'
  | 5 => '5' | 6 => '6' | 7 => '7' | 8 => '8' | _ => '9'

/-- Decimal digits of a natural number, most significant first; the fuel
argument makes the recursion structural so that the kernel can evaluate it
(fuel `n + 1` always suffices since the argument shrinks by a factor of ten). -/
def natDigitsAux : Nat → Nat → List Char
  | 0, _ => []
  | fuel + 1, n =>
    if n < 10 then [digitCharJs n]
    else natDigitsAux fuel (n / 10) ++ [digitCharJs (n % 10)]

/-- Decimal digits of a natural number, most significant first. -/
def natDigits (n : Nat) : List Char := natDigitsAux (n + 1) n

/-- JavaScript `Number.prototype.toString` for a natural number. -/
def natToString (n : Nat) : String := String.mk (natDigits n)

/-- JavaScript `Number.prototype.toString` for an integer-valued number. -/
def intToString (n : Int) : String :=
  if n < 0 then String.mk ('-' :: natDigits n.natAbs) else String.mk (natDigits n.natAbs)

/-- Whether a character is an ASCII decimal digit. -/
def isJsDigit (c : Char) : Bool := '0' ≤ c && c ≤ '9'

/-- Value of a decimal digit character, none otherwise. -/
def digitVal10 (c : Char) : Option Nat :=
  if isJsDigit c then some (c.toNat - 48) else none

/-- Value of a hexadecimal digit character, none otherwise. -/
def digitVal16 (c : Char) : Option Nat :=
  if isJsDigit c then some (c.toNat - 48)
  else if 'a' ≤ c && c ≤ 'f' then some (c.toNat - 87)
  else if 'A' ≤ c && c ≤ 'F' then some (c.toNat - 55)
  else none

/-- Longest digit prefix in the given radix, as JavaScript `parseInt` reads
it: none when no digit was seen at all, otherwise the accumulated value. -/
def parseDigits (digitVal : Char → Option Nat) (radix : Nat) :
    List Char → Nat → Bool → Option Nat
  | [], acc, seen => if seen then some acc else none
  | c :: rest, acc, seen =>
    match digitVal c with
    | some d => parseDigits digitVal radix rest (acc * radix + d) true
    | none => if seen then some acc else none

/-- Optional sign at the head of the character stream: whether it was a
minus, and the remaining characters. -/
def splitSign : List Char → Bool × List Char
  | [] => (false, [])
  | c :: rest =>
    if c = '-' then (true, rest)
    else if c = '+' then (false, rest)
    else (false, c :: rest)

/-- Hexadecimal marker 0x or 0X at the head of the character stream: whether
it was present, and the remaining characters. -/
def splitHexMark : List Char → Bool × List Char
  | z :: x :: rest =>
    if z = '0' && (x = 'x' || x = 'X') then (true, rest) else (false, z :: x :: rest)
  | cs => (false, cs)

/-- JavaScript `parseInt` over a character list: skip leading whitespace,
read an optional sign, honour a hexadecimal 0x/0X marker, then read the
longest digit run; none models `NaN`. -/
def parseIntCore (cs0 : List Char) : Option Int :=
  let cs := cs0.dropWhile Char.isWhitespace
  let signed := splitSign cs
  let hexed := splitHexMark signed.2
  let parsed :=
    if hexed.1 then parseDigits digitVal16 16 hexed.2 0 false
    else parseDigits digitVal10 10 hexed.2 0 false
  match parsed with
  | none => none
  | some v => some (if signed.1 then -(v : Int) else (v : Int))

/-- JavaScript `parseInt(s)` with no radix argument. -/
def parseIntJs (s : String) : Option Int := parseIntCore s.data

/-- UTF-8 encoding of one character, as the byte values `encodeURIComponent`
percent-encodes. -/
def utf8Bytes (c : Char) : List Nat :=
  let n := c.toNat
  if n < 0x80 then [n]
  else if n < 0x800 then [0xC0 + n / 0x40, 0x80 + n % 0x40]
  else if n < 0x10000 then [0xE0 + n / 0x1000, 0x80 + n / 0x40 % 0x40, 0x80 + n % 0x40]
  else [0xF0 + n / 0x40000, 0x80 + n / 0x1000 % 0x40, 0x80 + n / 0x40 % 0x40, 0x80 + n % 0x40]

/-- Uppercase hexadecimal digit character (only applied to values below 16). -/
def hexDigitUpper (n : Nat) : Char :=
  match n with
  | 0 => '0' | 1 => '1' | 2 => '2' | 3 => '3' | 4 => '4' | 5 => '5' | 6 => '6'
  | 7 => '7' | 8 => '8' | 9 => '9' | 10 => 'A' | 11 => 'B' | 12 => 'C' | 13 => 'D'
  | 14 => 'E' | _ => 'F'

/-- Characters `encodeURIComponent` leaves unescaped (ECMA-262 unreserved set). -/
def isUnreservedURIChar (c : Char) : Bool :=
  c.isAlpha || c.isDigit || c = '-' || c = '_' || c = '.' || c = '!' ||
    c = '~' || c = '*' || c = '\'' || c = '(' || c = ')'

/-- JavaScript `encodeURIComponent`: unreserved characters pass through, every
other character becomes the percent-encoding of its UTF-8 bytes. -/
def encodeURIComponent (s : String) : String :=
  String.mk (s.data.flatMap fun c =>
    if isUnreservedURIChar c then [c]
    else (utf8Bytes c).flatMap fun b => ['%', hexDigitUpper (b / 16), hexDigitUpper (b % 16)])

/-- JavaScript `a || b` for two optional strings ("" and absent are falsy). -/
def jsOrStr (a b : Option String) : Option String :=
  match a with
  | some s => if s = "" then b else some s
  | none => b

/-- JavaScript `a || d` for an optional string against a string literal
default ("" and absent are falsy). -/
def jsOrDefault (v : Option String) (d : String) : String :=
  match v with
  | some s => if s = "" then d else s
  | none => d

/-- Truthiness filter on an optional string: `some s` survives only when `s`
is non-empty. -/
def jsTruthyStr : Option String → Option String
  | some s => if s = "" then none else some s
  | none => none

/-- One description block inside a `SteamDescription` (`descriptions` entry). -/
structure DescriptionBlock where
  type : String
  value : String
  color : Option String
deriving DecidableEq, Repr

/-- One action link inside a `SteamDescription` (`actions` entry). -/
structure ActionEntry where
  name : String
  link : String
deriving DecidableEq, Repr

/-- One category tag inside a `SteamDescription` (`tags` entry). -/
structure TagEntry where
  category : String
  internal_name : String
  localized_category_name : String
  localized_tag_name : String
  color : Option String
deriving DecidableEq, Repr

/-- The route's `SteamAsset` interface: one owned asset record. -/
structure SteamAsset where
  appid : Int
  contextid : String
  assetid : String
  classid : String
  instanceid : String
  amount : String
deriving DecidableEq, Repr

/-- The route's `SteamDescription` interface. Runtime JSON is not guaranteed
to honour the TypeScript interface, which is exactly why the route validates;
the loosely-typed fields are therefore modelled per the conventions above. -/
structure SteamDescription where
  appid : Int
  classid : String
  instanceid : String
  name : String
  market_hash_name : String
  market_name : String
  type : String
  tradable : Option Int
  marketable : Option Int
  commodity : Option Int
  market_tradable_restriction : Option Int
  descriptions : Option (List DescriptionBlock)
  actions : Option (List ActionEntry)
  name_color : Option String
  background_color : Option String
  icon_url : String
  icon_url_large : Option String
  tags : Option (List TagEntry)
deriving DecidableEq, Repr

/-- The merged `SteamInventoryItem`: every description field plus the asset's
`assetid`, `amount` and `contextid`. -/
structure SteamInventoryItem where
  appid : Int
  contextid : String
  assetid : String
  classid : String
  instanceid : String
  amount : String
  name : String
  market_hash_name : String
  market_name : String
  type : String
  tradable : Option Int
  marketable : Option Int
  commodity : Option Int
  market_tradable_restriction : Option Int
  descriptions : Option (List DescriptionBlock)
  actions : Option (List ActionEntry)
  name_color : Option String
  background_color : Option String
  icon_url : String
  icon_url_large : Option String
  tags : Option (List TagEntry)
deriving DecidableEq, Repr

/-- The route's type guard `isValidInventoryItem`, check for check: truthiness
of the identity, quantity, presentation and icon fields (for the numeric
`appid` the sole falsy number value is 0), `typeof _ === 'number'` on the four
flag fields, and `Array.isArray` on `descriptions` and `tags`. -/
def isValidInventoryItem (item : SteamInventoryItem) : Bool :=
  item.appid != 0 &&
  item.contextid != "" &&
  item.assetid != "" &&
  item.classid != "" &&
  item.instanceid != "" &&
  item.amount != "" &&
  item.name != "" &&
  item.market_hash_name != "" &&
  item.market_name != "" &&
  item.type != "" &&
  item.tradable.isSome &&
  item.marketable.isSome &&
  item.commodity.isSome &&
  item.market_tradable_restriction.isSome &&
  item.descriptions.isSome &&
  item.tags.isSome &&
  item.icon_url != ""

/-- The route's `getContextId`: Steam Community items (absent or "753") use
context 6, game items use context 2. -/
def getContextId (appId : Option String) : String :=
  match appId with
  | none => "6"
  | some a => if a = "" || a = "753" then "6" else "2"

/-- The route's `getInventoryAppId`: absent ids default to "753"; the known
games "730", "570" and "440" pass through; other ids pass through when
`parseInt` accepts them and fall back to "753" otherwise. -/
def getInventoryAppId (appId : Option String) : String :=
  match appId with
  | none => "753"
  | some a =>
    if a = "" then "753"
    else if a = "730" || a = "570" || a = "440" then a
    else
      match parseIntJs a with
      | none => "753"
      | some _ => a

/-- The description lookup inside the route's merge step: the first
description whose `classid` and `instanceid` both equal the asset's. -/
def findDescription (descriptions : List SteamDescription) (asset : SteamAsset) :
    Option SteamDescription :=
  descriptions.find? fun description =>
    description.classid == asset.classid && description.instanceid == asset.instanceid

/-- The merged item the route builds from an asset and its matched
description: the description spread first, then the asset's `assetid`,
`amount` and `contextid`, and `market_hash_name` percent-encoded. -/
def mergeItem (asset : SteamAsset) (description : SteamDescription) : SteamInventoryItem :=
  { appid := description.appid
    contextid := asset.contextid
    assetid := asset.assetid
    classid := description.classid
    instanceid := description.instanceid
    amount := asset.amount
    name := description.name
    market_hash_name := encodeURIComponent description.market_hash_name
    market_name := description.market_name
    type := description.type
    tradable := description.tradable
    marketable := description.marketable
    commodity := description.commodity
    market_tradable_restriction := description.market_tradable_restriction
    descriptions := description.descriptions
    actions := description.actions
    name_color := description.name_color
    background_color := description.background_color
    icon_url := description.icon_url
    icon_url_large := description.icon_url_large
    tags := description.tags }

/-- One step of the route's merge: no matching description gives null, an
invalid merged item gives null, otherwise the merged item. -/
def mergeAsset (descriptions : List SteamDescription) (asset : SteamAsset) :
    Option SteamInventoryItem :=
  match findDescription descriptions asset with
  | none => none
  | some description =>
    let item := mergeItem asset description
    if isValidInventoryItem item then some item else none

/-- The route's merge of assets with descriptions: map each asset and drop
the nulls (`.map(...).filter(item => item !== null)`). -/
def mergeItems (assets : List SteamAsset) (descriptions : List SteamDescription) :
    List SteamInventoryItem :=
  assets.filterMap (mergeAsset descriptions)

/-- The route's appid filter: applied only when the `appid` query parameter
is truthy, comparing each item's numeric appid rendered as a decimal string
against the raw parameter. -/
def filterByAppId (appId : Option String) (items : List SteamInventoryItem) :
    List SteamInventoryItem :=
  match appId with
  | none => items
  | some a =>
    if a = "" then items
    else items.filter fun item => intToString item.appid == a

/-- Truthy rarity color of an item: JavaScript's `a.name_color` test conflates
an absent color with an empty one. -/
def itemNameColor (item : SteamInventoryItem) : String := item.name_color.getD ""

/-- Whether the item carries a (truthy) rarity color. -/
def hasNameColor (item : SteamInventoryItem) : Bool := itemNameColor item != ""

/-- The route's sort comparator: items with rarity colors first, those ordered
by descending color string, colorless items ordered by ascending name. -/
def compareItems (a b : SteamInventoryItem) : Int :=
  if hasNameColor a && hasNameColor b then localeCompare (itemNameColor b) (itemNameColor a)
  else if hasNameColor a then -1
  else if hasNameColor b then 1
  else localeCompare a.name b.name

/-- Non-strict comparator order: a may stay before b. -/
def itemLE (a b : SteamInventoryItem) : Bool := compareItems a b ≤ 0

/-- Stable insertion of an element into a list: it lands before the first
element it may precede. -/
def stableInsert (le : α → α → Bool) (a : α) : List α → List α
  | [] => [a]
  | b :: l => if le a b then a :: b :: l else b :: stableInsert le a l

/-- Stable insertion sort; the embedding of `Array.prototype.sort`, which
ECMA-262 requires to be stable (a stable sort consistent with a comparator
determines the output uniquely). -/
def stableSort (le : α → α → Bool) : List α → List α
  | [] => []
  | a :: l => stableInsert le a (stableSort le l)

/-- The route's `filteredItems.sort((a, b) => ...)`. -/
def sortItems (items : List SteamInventoryItem) : List SteamInventoryItem :=
  stableSort itemLE items

/-- The session data the route reads out of the parsed cookie (only its
`steamid` is consumed). -/
structure SteamUserData where
  steamid : Option String
deriving DecidableEq, Repr

/-- The inbound request: the `steam_session` cookie and the query parameters
the route reads. -/
structure InventoryRequest where
  steam_session : Option String
  steamid : Option String
  page : Option String
  limit : Option String
  appid : Option String
  start_assetid : Option String
deriving DecidableEq, Repr

/-- The JSON body of a 2xx upstream response, with every field the route
reads modelled as possibly absent. -/
structure InventoryData where
  error : Option String
  assets : Option (List SteamAsset)
  descriptions : Option (List SteamDescription)
  total_inventory_count : Option Nat
  more_items : Option Bool
  last_assetid : Option String
deriving DecidableEq, Repr

/-- Outcome of the route's `fetch` of the upstream service: a 2xx response
with a JSON body, a non-2xx response with its error text, or a thrown
exception (network failure, or a 2xx body that is not JSON). -/
inductive FetchOutcome where
  | ok (data : InventoryData)
  | httpError (status : Nat) (body : String)
  | exn (message : String)
deriving DecidableEq, Repr

/-- The success JSON envelope the route returns. `page`, `limit` and
`total_pages` are Option Int because `parseInt` can produce NaN; `has_more`
and `next_start_asset_id` are whatever the upstream body carried, absent
included. -/
structure SuccessBody where
  success : Bool
  items : List SteamInventoryItem
  total_count : Nat
  page : Option Int
  limit : Option Int
  total_pages : Option Int
  has_more : Option Bool
  next_start_asset_id : Option String
  app_id : String
  context_id : String
deriving DecidableEq, Repr

/-- The error JSON envelope of the route's catch block. -/
structure ErrorBody where
  success : Bool
  error : String
  details : Option String
  items : List SteamInventoryItem
  total_count : Nat
deriving DecidableEq, Repr

/-- An HTTP response of the route: an early `{error}` JSON with its status,
the 200 success envelope with its two cache headers, or the catch block's
500 envelope with its Cache-Control header. -/
inductive ApiResponse where
  | simpleError (status : Nat) (error : String)
  | ok (body : SuccessBody) (cacheControl : String) (cacheTags : String)
  | serverError (body : ErrorBody) (cacheControl : String)
deriving DecidableEq, Repr

/-- HTTP status of a response. -/
def ApiResponse.status : ApiResponse → Nat
  | .simpleError s _ => s
  | .ok _ _ _ => 200
  | .serverError _ _ => 500

/-- The catch block's response: generic error, diagnostic details only in
development mode, empty items, zero count, caching disabled. -/
def errorResponse (isDev : Bool) (message : String) : ApiResponse :=
  .serverError
    { success := false
      error := "Failed to fetch inventory"
      details := if isDev then some message else none
      items := []
      total_count := 0 }
    "no-store"

/-- The outbound inventory URL's pieces: path parameters plus the query
parameters the route appends (`l`, `count`, and conditionally
`start_assetid`). -/
structure InventoryUrl where
  steamId : String
  appId : String
  contextId : String
  l : String
  count : String
  start_assetid : Option String
deriving DecidableEq, Repr

/-- JavaScript `page > 1` where page may be NaN. -/
def pageGreaterThanOne (page : Option Int) : Bool :=
  match page with
  | some p => p > 1
  | none => false

/-- The route's URL construction: locale and count always, `start_assetid`
only when the page is beyond the first and the caller's cursor parameter is
truthy. -/
def buildInventoryUrl (steamId inventoryAppId contextId : String) (limit : Option Int)
    (page : Option Int) (startAssetIdParam : Option String) : InventoryUrl :=
  { steamId := steamId
    appId := inventoryAppId
    contextId := contextId
    l := "english"
    count := match limit with | some n => intToString n | none => "NaN"
    start_assetid :=
      if pageGreaterThanOne page then
        match startAssetIdParam with
        | some s => if s = "" then none else some s
        | none => none
      else none }

/-- JavaScript `Math.min(x, 100)` where x may be NaN. -/
def jsMin100 (n : Option Int) : Option Int := n.map fun v => min v 100

/-- JavaScript `Math.ceil(total / limit)`: none models a non-finite result
(NaN limit, or division by zero). -/
def totalPagesOf (total : Nat) (limit : Option Int) : Option Int :=
  match limit with
  | none => none
  | some l =>
    if 0 < l then some (((total : Int) + l - 1) / l)
    else if l = 0 then none
    else some (-((total : Int) / (-l)))

/-- Resolution of the steamid the route queries for: the `steamid` query
parameter, else the session's, and the whole thing must be truthy. -/
def resolveSteamId (req : InventoryRequest) (userData : SteamUserData) : Option String :=
  jsTruthyStr (jsOrStr req.steamid userData.steamid)

/-- The `x-cache-tags` header value: the user-scoped tag, plus an app-scoped
tag when an appid filter was supplied. -/
def cacheTagsFor (steamId : String) (appId : Option String) : String :=
  "user-" ++ steamId ++ "-inventory" ++
    (match appId with
     | some a => if a = "" then "" else ",app-" ++ a ++ "-inventory"
     | none => "")

/-- The success envelope: defaulted assets/descriptions/total, merge, filter,
sort, pagination metadata, and the upstream's `more_items`/`last_assetid`
passed through unchanged. -/
def buildSuccessBody (data : InventoryData) (appId : Option String)
    (inventoryAppId contextId : String) (page limit : Option Int) : SuccessBody :=
  let assets := data.assets.getD []
  let descriptions := data.descriptions.getD []
  let total := data.total_inventory_count.getD 0
  let items := mergeItems assets descriptions
  let filteredItems := filterByAppId appId items
  { success := true
    items := sortItems filteredItems
    total_count := total
    page := page
    limit := limit
    total_pages := totalPagesOf total limit
    has_more := data.more_items
    next_start_asset_id := data.last_assetid
    app_id := inventoryAppId
    context_id := contextId }

/-- The route's GET handler. `parseSession` stands for `JSON.parse` of the
cookie (`Except.error` = a thrown parse error, caught by the catch block),
`validateSteamSession` for the external session validator, `isDev` for
`config.isDev`, and `upstream` for the network call's outcome. The upstream
error field is a truthiness test, so an empty-string error is falsy and the
handler proceeds to the success envelope. The second
component is the outbound call: none when the handler returned before
fetching, otherwise the URL it fetched. -/
def handleGET (parseSession : String → Except String SteamUserData)
    (validateSteamSession : SteamUserData → Bool) (isDev : Bool)
    (req : InventoryRequest) (upstream : FetchOutcome) :
    ApiResponse × Option InventoryUrl :=
  match req.steam_session with
  | none => (.simpleError 401 "Unauthorized", none)
  | some cookieValue =>
    if cookieValue = "" then (.simpleError 401 "Unauthorized", none)
    else
      match parseSession cookieValue with
      | .error message => (errorResponse isDev message, none)
      | .ok userData =>
        if !validateSteamSession userData then (.simpleError 401 "Invalid session", none)
        else
          match resolveSteamId req userData with
          | none => (.simpleError 400 "Steam ID required", none)
          | some steamId =>
            let page := parseIntJs (jsOrDefault req.page "1")
            let limit := jsMin100 (parseIntJs (jsOrDefault req.limit "100"))
            let inventoryAppId := getInventoryAppId req.appid
            let contextId := getContextId req.appid
            let url := buildInventoryUrl steamId inventoryAppId contextId limit page
              req.start_assetid
            match upstream with
            | .httpError status body =>
              (errorResponse isDev
                ("Failed to fetch inventory: " ++ natToString status ++ " - " ++ body),
                some url)
            | .exn message => (errorResponse isDev message, some url)
            | .ok data =>
              match jsTruthyStr data.error with
              | some e => (errorResponse isDev ("Steam API error: " ++ e), some url)
              | none =>
                (.ok (buildSuccessBody data req.appid inventoryAppId contextId page limit)
                  "s-maxage=300, stale-while-revalidate"
                  (cacheTagsFor steamId req.appid),
                  some url)

/-- Fully populated item used as a base for concrete examples. -/
def baseExampleItem : SteamInventoryItem :=
  { appid := 440, contextid := "2", assetid := "100", classid := "11", instanceid := "0",
    amount := "1", name := "Example", market_hash_name := "Example",
    market_name := "Example", type := "Tool", tradable := some 1, marketable := some 1,
    commodity := some 0, market_tradable_restriction := some 0, descriptions := some [],
    actions := none, name_color := none, background_color := none, icon_url := "icon",
    icon_url_large := none, tags := some [] }

/-- Example item with rarity color "Legendary". -/
def legendaryExampleItem : SteamInventoryItem :=
  { baseExampleItem with name := "A", name_color := some "Legendary" }

/-- Example item with rarity color "Common". -/
def commonExampleItem : SteamInventoryItem :=
  { baseExampleItem with name := "B", name_color := some "Common" }

/-- Cookie parser standing in for `JSON.parse` in concrete scenarios. -/
def stubParse : String → Except String SteamUserData :=
  fun _ => .ok { steamid := some "76561197960287930" }

/-- Session validator accepting everything, for concrete scenarios. -/
def stubValidate : SteamUserData → Bool := fun _ => true

/-- Request with a session cookie and no query parameters. -/
def stubRequest : InventoryRequest :=
  { steam_session := some "session", steamid := none, page := none, limit := none,
    appid := none, start_assetid := none }

/-- Asset for which the upstream page carries no description. -/
def exampleUnmatchedAsset : SteamAsset :=
  { appid := 753, contextid := "6", assetid := "A", classid := "1", instanceid := "0",
    amount := "1" }

/-- Upstream page holding one asset and an empty description list. -/
def oneAssetNoDescriptionsData : InventoryData :=
  { error := none, assets := some [exampleUnmatchedAsset], descriptions := some [],
    total_inventory_count := none, more_items := none, last_assetid := none }

/-- Upstream page in which every optional field is absent. -/
def allAbsentData : InventoryData :=
  { error := none, assets := none, descriptions := none, total_inventory_count := none,
    more_items := none, last_assetid := none }

/-- The success body the handler produces for `allAbsentData` under
`stubRequest`. -/
def allAbsentExpectedBody : SuccessBody :=
  { success := true, items := [], total_count := 0, page := some 1, limit := some 100,
    total_pages := some 0, has_more := none, next_start_asset_id := none,
    app_id := "753", context_id := "6" }

/-- Upstream page whose body carries an error field holding the empty
string (falsy in JavaScript), everything else absent. -/
def emptyErrorFieldData : InventoryData :=
  { error := some "", assets := none, descriptions := none,
    total_inventory_count := none, more_items := none, last_assetid := none }

theorem charListLt_nil_right (l : List Char) : charListLt l [] = false := by
  cases l <;> rfl

theorem charListLt_irrefl (l : List Char) : charListLt l l = false := by
  induction l with
  | nil => rfl
  | cons a as ih => simp [charListLt, ih]

theorem charListLt_asymm : ∀ (l₁ l₂ : List Char),
    charListLt l₁ l₂ = true → charListLt l₂ l₁ = false
  | l₁, [], h => by rw [charListLt_nil_right] at h; cases h
  | [], _ :: _, _ => rfl
  | a :: as, b :: bs, h => by
    by_cases hab : a < b
    · simp [charListLt, lt_asymm hab, hab]
    · by_cases hba : b < a
      · simp [charListLt, hab, hba] at h
      · have h' : charListLt as bs = true := by simpa [charListLt, hab, hba] using h
        simp [charListLt, hab, hba, charListLt_asymm as bs h']

theorem charListLt_trans : ∀ (l₁ l₂ l₃ : List Char),
    charListLt l₁ l₂ = true → charListLt l₂ l₃ = true → charListLt l₁ l₃ = true
  | _, l₂, [], _, h₂ => by rw [charListLt_nil_right] at h₂; cases h₂
  | l₁, [], _ :: _, h₁, _ => by rw [charListLt_nil_right] at h₁; cases h₁
  | [], _ :: _, _ :: _, _, _ => rfl
  | a :: as, b :: bs, c :: cs, h₁, h₂ => by
    by_cases hab : a < b
    · by_cases hbc : b < c
      · simp [charListLt, lt_trans hab hbc]
      · by_cases hcb : c < b
        · simp [charListLt, hbc, hcb] at h₂
        · have hbceq : b = c := le_antisymm (not_lt.mp hcb) (not_lt.mp hbc)
          subst hbceq
          simp [charListLt, hab]
    · by_cases hba : b < a
      · simp [charListLt, hab, hba] at h₁
      · have habeq : a = b := le_antisymm (not_lt.mp hba) (not_lt.mp hab)
        subst habeq
        by_cases hac : a < c
        · simp [charListLt, hac]
        · by_cases hca : c < a
          · simp [charListLt, hac, hca] at h₂
          · have haceq : a = c := le_antisymm (not_lt.mp hca) (not_lt.mp hac)
            subst haceq
            have h₁' : charListLt as bs = true := by simpa [charListLt] using h₁
            have h₂' : charListLt bs cs = true := by simpa [charListLt] using h₂
            simp [charListLt, charListLt_trans as bs cs h₁' h₂']

theorem charListLt_connex : ∀ (l₁ l₂ : List Char),
    charListLt l₁ l₂ = false → charListLt l₂ l₁ = false → l₁ = l₂
  | [], [], _, _ => rfl
  | [], _ :: _, h₁, _ => by simp [charListLt] at h₁
  | _ :: _, [], _, h₂ => by simp [charListLt] at h₂
  | a :: as, b :: bs, h₁, h₂ => by
    by_cases hab : a < b
    · simp [charListLt, hab] at h₁
    · by_cases hba : b < a
      · simp [charListLt, hba] at h₂
      · have habeq : a = b := le_antisymm (not_lt.mp hba) (not_lt.mp hab)
        subst habeq
        have h₁' : charListLt as bs = false := by simpa [charListLt, hba] using h₁
        have h₂' : charListLt bs as = false := by simpa [charListLt, hba] using h₂
        rw [charListLt_connex as bs h₁' h₂']

theorem strLt_irrefl (s : String) : strLt s s = false := charListLt_irrefl _

theorem strLt_asymm {a b : String} (h : strLt a b = true) : strLt b a = false :=
  charListLt_asymm _ _ h

theorem strLt_trans {a b c : String} (h₁ : strLt a b = true) (h₂ : strLt b c = true) :
    strLt a c = true :=
  charListLt_trans _ _ _ h₁ h₂

theorem strLt_connex {a b : String} (h₁ : strLt a b = false) (h₂ : strLt b a = false) :
    a = b :=
  String.ext (charListLt_connex _ _ h₁ h₂)

theorem strLt_false_trans {a b c : String} (h₁ : strLt a b = false)
    (h₂ : strLt b c = false) : strLt a c = false := by
  cases hac : strLt a c with
  | false => rfl
  | true =>
    cases hcb : strLt c b with
    | true =>
      have : strLt a b = true := strLt_trans hac hcb
      rw [h₁] at this; cases this
    | false =>
      have hbc : b = c := strLt_connex h₂ hcb
      rw [← hbc] at hac
      rw [h₁] at hac; cases hac

theorem localeCompare_le_zero (a b : String) : localeCompare a b ≤ 0 ↔ strLt b a = false := by
  unfold localeCompare
  by_cases h₁ : strLt a b = true
  · rw [if_pos h₁]
    exact ⟨fun _ => strLt_asymm h₁, fun _ => by omega⟩
  · rw [if_neg h₁]
    by_cases h₂ : strLt b a = true
    · rw [if_pos h₂]
      exact ⟨fun h => by omega, fun h => by rw [h₂] at h; cases h⟩
    · rw [if_neg h₂]
      exact ⟨fun _ => by simpa using h₂, fun _ => by omega⟩

theorem localeCompare_neg (a b : String) : localeCompare a b < 0 ↔ strLt a b = true := by
  unfold localeCompare
  by_cases h₁ : strLt a b = true
  · rw [if_pos h₁]
    exact ⟨fun _ => h₁, fun _ => by omega⟩
  · rw [if_neg h₁]
    have h₁f : strLt a b = false := by simpa using h₁
    by_cases h₂ : strLt b a = true
    · rw [if_pos h₂]
      exact ⟨fun h => by omega, fun h => by rw [h₁f] at h; cases h⟩
    · rw [if_neg h₂]
      exact ⟨fun h => by omega, fun h => by rw [h₁f] at h; cases h⟩

theorem localeCompare_eq_zero (a b : String) : localeCompare a b = 0 ↔ a = b := by
  unfold localeCompare
  by_cases h₁ : strLt a b = true
  · rw [if_pos h₁]
    constructor
    · intro h; omega
    · intro h; subst h; rw [strLt_irrefl] at h₁; cases h₁
  · rw [if_neg h₁]
    by_cases h₂ : strLt b a = true
    · rw [if_pos h₂]
      constructor
      · intro h; omega
      · intro h; subst h; rw [strLt_irrefl] at h₂; cases h₂
    · rw [if_neg h₂]
      refine ⟨fun _ => ?_, fun _ => rfl⟩
      exact strLt_connex (by simpa using h₁) (by simpa using h₂)

theorem compareItems_both {a b : SteamInventoryItem} (ha : hasNameColor a = true)
    (hb : hasNameColor b = true) :
    compareItems a b = localeCompare (itemNameColor b) (itemNameColor a) := by
  simp [compareItems, ha, hb]

theorem compareItems_left {a b : SteamInventoryItem} (ha : hasNameColor a = true)
    (hb : hasNameColor b = false) : compareItems a b = -1 := by
  simp [compareItems, ha, hb]

theorem compareItems_right {a b : SteamInventoryItem} (ha : hasNameColor a = false)
    (hb : hasNameColor b = true) : compareItems a b = 1 := by
  simp [compareItems, ha, hb]

theorem compareItems_none {a b : SteamInventoryItem} (ha : hasNameColor a = false)
    (hb : hasNameColor b = false) : compareItems a b = localeCompare a.name b.name := by
  simp [compareItems, ha, hb]

theorem itemLE_eq_true (a b : SteamInventoryItem) : itemLE a b = true ↔ compareItems a b ≤ 0 := by
  simp [itemLE]

theorem itemLE_total (a b : SteamInventoryItem) : (itemLE a b || itemLE b a) = true := by
  rw [Bool.or_eq_true, itemLE_eq_true, itemLE_eq_true]
  cases ha : hasNameColor a with
  | true =>
    cases hb : hasNameColor b with
    | true =>
      rw [compareItems_both ha hb, compareItems_both hb ha,
        localeCompare_le_zero, localeCompare_le_zero]
      by_cases h : strLt (itemNameColor a) (itemNameColor b) = true
      · exact Or.inr (strLt_asymm h)
      · exact Or.inl (by simpa using h)
    | false => exact Or.inl (by rw [compareItems_left ha hb]; omega)
  | false =>
    cases hb : hasNameColor b with
    | true => exact Or.inr (by rw [compareItems_left hb ha]; omega)
    | false =>
      rw [compareItems_none ha hb, compareItems_none hb ha,
        localeCompare_le_zero, localeCompare_le_zero]
      by_cases h : strLt b.name a.name = true
      · exact Or.inr (strLt_asymm h)
      · exact Or.inl (by simpa using h)

theorem itemLE_trans (a b c : SteamInventoryItem) (h₁ : itemLE a b = true)
    (h₂ : itemLE b c = true) : itemLE a c = true := by
  rw [itemLE_eq_true] at h₁ h₂ ⊢
  cases ha : hasNameColor a with
  | true =>
    cases hb : hasNameColor b with
    | true =>
      cases hc : hasNameColor c with
      | true =>
        rw [compareItems_both ha hb, localeCompare_le_zero] at h₁
        rw [compareItems_both hb hc, localeCompare_le_zero] at h₂
        rw [compareItems_both ha hc, localeCompare_le_zero]
        exact strLt_false_trans h₁ h₂
      | false => rw [compareItems_left ha hc]; omega
    | false =>
      cases hc : hasNameColor c with
      | true => rw [compareItems_right hb hc] at h₂; omega
      | false => rw [compareItems_left ha hc]; omega
  | false =>
    cases hb : hasNameColor b with
    | true => rw [compareItems_right ha hb] at h₁; omega
    | false =>
      cases hc : hasNameColor c with
      | true => rw [compareItems_right hb hc] at h₂; omega
      | false =>
        rw [compareItems_none ha hb, localeCompare_le_zero] at h₁
        rw [compareItems_none hb hc, localeCompare_le_zero] at h₂
        rw [compareItems_none ha hc, localeCompare_le_zero]
        exact strLt_false_trans h₂ h₁

theorem mem_stableInsert (le : α → α → Bool) (x y : α) (l : List α) :
    y ∈ stableInsert le x l ↔ y = x ∨ y ∈ l := by
  induction l with
  | nil => simp [stableInsert]
  | cons b bl ih =>
    by_cases h : le x b = true
    · simp [stableInsert, h]
    · simp [stableInsert, h, ih]
      tauto

theorem sublist_stableInsert (le : α → α → Bool) (x : α) (l : List α) :
    l.Sublist (stableInsert le x l) := by
  induction l with
  | nil => exact List.nil_sublist _
  | cons b bl ih =>
    by_cases h : le x b = true
    · simp only [stableInsert, if_pos h]
      exact List.Sublist.cons _ (List.Sublist.refl _)
    · simp only [stableInsert, if_neg h]
      exact List.Sublist.cons₂ _ ih

theorem pair_sublist_stableInsert {le : α → α → Bool} {x y : α} (hxy : le x y = true) :
    ∀ {l : List α}, y ∈ l → [x, y].Sublist (stableInsert le x l)
  | [], hy => absurd hy (List.not_mem_nil _)
  | c :: cl, hy => by
    by_cases h : le x c = true
    · simp only [stableInsert, if_pos h]
      exact List.Sublist.cons₂ _ (List.singleton_sublist.mpr hy)
    · rcases List.mem_cons.mp hy with rfl | hy'
      · rw [hxy] at h; cases h rfl
      · simp only [stableInsert, if_neg h]
        exact List.Sublist.cons _ (pair_sublist_stableInsert hxy hy')

theorem mem_stableSort (le : α → α → Bool) (l : List α) (y : α) :
    y ∈ stableSort le l ↔ y ∈ l := by
  induction l with
  | nil => simp [stableSort]
  | cons a al ih => simp [stableSort, mem_stableInsert, ih]

theorem pair_sublist_stableSort {le : α → α → Bool} {x y : α} (hxy : le x y = true) :
    ∀ {l : List α}, [x, y].Sublist l → [x, y].Sublist (stableSort le l)
  | [], h => by simp at h
  | c :: cl, h => by
    rw [stableSort]
    cases h with
    | cons _ h' => exact (pair_sublist_stableSort hxy h').trans (sublist_stableInsert _ _ _)
    | cons₂ _ h' =>
      exact pair_sublist_stableInsert hxy
        ((mem_stableSort le cl y).mpr (List.singleton_sublist.mp h'))

theorem pairwise_stableInsert {le : α → α → Bool}
    (trans : ∀ a b c, le a b = true → le b c = true → le a c = true)
    (total : ∀ a b, (le a b || le b a) = true) (x : α) :
    ∀ (l : List α), l.Pairwise (fun a b => le a b = true) →
      (stableInsert le x l).Pairwise (fun a b => le a b = true)
  | [], _ => by simp [stableInsert]
  | c :: cl, h => by
    rcases List.pairwise_cons.mp h with ⟨hc, hcl⟩
    by_cases hxc : le x c = true
    · simp only [stableInsert, if_pos hxc]
      refine List.pairwise_cons.mpr ⟨?_, h⟩
      intro z hz
      rcases List.mem_cons.mp hz with rfl | hz'
      · exact hxc
      · exact trans x c z hxc (hc z hz')
    · have hcx : le c x = true := by
        have ht := total x c
        rw [Bool.or_eq_true] at ht
        rcases ht with h' | h'
        · exact absurd h' hxc
        · exact h'
      simp only [stableInsert, if_neg hxc]
      refine List.pairwise_cons.mpr ⟨?_, pairwise_stableInsert trans total x cl hcl⟩
      intro z hz
      rcases (mem_stableInsert le x z cl).mp hz with rfl | hz'
      · exact hcx
      · exact hc z hz'

theorem pairwise_stableSort {le : α → α → Bool}
    (trans : ∀ a b c, le a b = true → le b c = true → le a c = true)
    (total : ∀ a b, (le a b || le b a) = true) :
    ∀ l : List α, (stableSort le l).Pairwise (fun a b => le a b = true)
  | [] => by simp [stableSort]
  | a :: al => by
    rw [stableSort]
    exact pairwise_stableInsert trans total a _ (pairwise_stableSort trans total al)

theorem stableSort_of_pairwise {le : α → α → Bool} :
    ∀ {l : List α}, l.Pairwise (fun a b => le a b = true) → stableSort le l = l
  | [], _ => rfl
  | a :: al, h => by
    rcases List.pairwise_cons.mp h with ⟨ha, hal⟩
    rw [stableSort, stableSort_of_pairwise hal]
    cases al with
    | nil => rfl
    | cons b bl =>
      have hb : le a b = true := ha b (List.mem_cons_self _ _)
      simp [stableInsert, hb]

theorem stableSort_idem {le : α → α → Bool}
    (trans : ∀ a b c, le a b = true → le b c = true → le a c = true)
    (total : ∀ a b, (le a b || le b a) = true) (l : List α) :
    stableSort le (stableSort le l) = stableSort le l :=
  stableSort_of_pairwise (pairwise_stableSort trans total l)

theorem digitCharJs_isJsDigit : ∀ n : Nat, isJsDigit (digitCharJs n) = true
  | 0 | 1 | 2 | 3 | 4 | 5 | 6 | 7 | 8 => rfl
  | _ + 9 => rfl

theorem natDigitsAux_all : ∀ (fuel n : Nat), ∀ c ∈ natDigitsAux fuel n, isJsDigit c = true
  | 0, _, c, h => absurd h (List.not_mem_nil _)
  | fuel + 1, n, c, h => by
    by_cases hn : n < 10
    · simp only [natDigitsAux, if_pos hn, List.mem_singleton] at h
      rw [h]; exact digitCharJs_isJsDigit n
    · simp only [natDigitsAux, if_neg hn, List.mem_append, List.mem_singleton] at h
      rcases h with h | h
      · exact natDigitsAux_all fuel (n / 10) c h
      · rw [h]; exact digitCharJs_isJsDigit _

theorem natDigitsAux_ne_nil (fuel n : Nat) : natDigitsAux (fuel + 1) n ≠ [] := by
  by_cases hn : n < 10
  · simp [natDigitsAux, hn]
  · simp [natDigitsAux, hn]

theorem natDigits_all (m : Nat) : ∀ c ∈ natDigits m, isJsDigit c = true :=
  natDigitsAux_all _ _

theorem natDigits_cons (m : Nat) : ∃ d ds, natDigits m = d :: ds := by
  cases h : natDigits m with
  | nil => exact absurd h (natDigitsAux_ne_nil m m)
  | cons d ds => exact ⟨d, ds, rfl⟩

theorem isJsDigit_not_ws {c : Char} (h : isJsDigit c = true) : c.isWhitespace = false := by
  have h1 : c ≠ ' ' := fun e => by rw [e] at h; exact absurd h (by decide)
  have h2 : c ≠ '\t' := fun e => by rw [e] at h; exact absurd h (by decide)
  have h3 : c ≠ '\r' := fun e => by rw [e] at h; exact absurd h (by decide)
  have h4 : c ≠ '\n' := fun e => by rw [e] at h; exact absurd h (by decide)
  simp [Char.isWhitespace, h1, h2, h3, h4]

theorem isJsDigit_ne_of {c d : Char} (h : isJsDigit c = true) (hd : isJsDigit d = false) :
    c ≠ d := fun e => by rw [e, hd] at h; cases h

theorem digitVal10_isSome {c : Char} (h : isJsDigit c = true) :
    (digitVal10 c).isSome = true := by
  simp [digitVal10, h]

theorem splitSign_digit (d : Char) (ds : List Char) (hd : isJsDigit d = true) :
    splitSign (d :: ds) = (false, d :: ds) := by
  have h1 : d ≠ '-' := isJsDigit_ne_of hd (by decide)
  have h2 : d ≠ '+' := isJsDigit_ne_of hd (by decide)
  simp [splitSign, h1, h2]

theorem splitHexMark_digits (d : Char) (ds : List Char)
    (hall : ∀ c ∈ d :: ds, isJsDigit c = true) :
    splitHexMark (d :: ds) = (false, d :: ds) := by
  cases ds with
  | nil => rfl
  | cons x rest =>
    have hx : isJsDigit x = true := hall x (by simp)
    have h1 : x ≠ 'x' := isJsDigit_ne_of hx (by decide)
    have h2 : x ≠ 'X' := isJsDigit_ne_of hx (by decide)
    simp [splitHexMark, h1, h2]

theorem parseDigits_seen_isSome (dv : Char → Option Nat) (radix : Nat) :
    ∀ (cs : List Char) (acc : Nat), (parseDigits dv radix cs acc true).isSome = true
  | [], _ => rfl
  | c :: rest, acc => by
    cases h : dv c with
    | some d =>
      simp only [parseDigits, h]
      exact parseDigits_seen_isSome dv radix rest _
    | none => simp [parseDigits, h]

theorem parseDigits_head_digit (dv : Char → Option Nat) (radix : Nat) (c : Char)
    (rest : List Char) (acc : Nat) (h : (dv c).isSome = true) :
    (parseDigits dv radix (c :: rest) acc false).isSome = true := by
  cases hd : dv c with
  | none => rw [hd] at h; cases h
  | some d =>
    simp only [parseDigits, hd]
    exact parseDigits_seen_isSome dv radix rest _

theorem parseIntCore_digits (d : Char) (ds : List Char)
    (hall : ∀ c ∈ d :: ds, isJsDigit c = true) :
    (parseIntCore (d :: ds)).isSome = true := by
  have hd := hall d (List.mem_cons_self _ _)
  have hdw : Char.isWhitespace d = false := isJsDigit_not_ws hd
  have hsign : splitSign (d :: ds) = (false, d :: ds) := splitSign_digit d ds hd
  have hhex : splitHexMark (d :: ds) = (false, d :: ds) := splitHexMark_digits d ds hall
  obtain ⟨v, hv⟩ := Option.isSome_iff_exists.mp
    (parseDigits_head_digit digitVal10 10 d ds 0 (digitVal10_isSome hd))
  simp [parseIntCore, List.dropWhile_cons, hdw, hsign, hhex, hv]

theorem parseIntCore_neg_digits (d : Char) (ds : List Char)
    (hall : ∀ c ∈ d :: ds, isJsDigit c = true) :
    (parseIntCore ('-' :: d :: ds)).isSome = true := by
  have hd := hall d (List.mem_cons_self _ _)
  have hdw : Char.isWhitespace '-' = false := by decide
  have hhex : splitHexMark (d :: ds) = (false, d :: ds) := splitHexMark_digits d ds hall
  obtain ⟨v, hv⟩ := Option.isSome_iff_exists.mp
    (parseDigits_head_digit digitVal10 10 d ds 0 (digitVal10_isSome hd))
  simp [parseIntCore, List.dropWhile_cons, hdw, splitSign, hhex, hv]

theorem parseIntJs_intToString_isSome (n : Int) :
    (parseIntJs (intToString n)).isSome = true := by
  obtain ⟨d, ds, hnd⟩ := natDigits_cons n.natAbs
  have hall : ∀ c ∈ d :: ds, isJsDigit c = true := by
    rw [← hnd]; exact natDigits_all _
  by_cases hn : n < 0
  · unfold intToString
    rw [if_pos hn, hnd]
    exact parseIntCore_neg_digits d ds hall
  · unfold intToString
    rw [if_neg hn, hnd]
    exact parseIntCore_digits d ds hall

theorem intToString_ne_unparseable {a : String} (ha : parseIntJs a = none) (n : Int) :
    intToString n ≠ a := by
  intro e
  have h := parseIntJs_intToString_isSome n
  rw [e, ha] at h
  cases h

theorem mergeAsset_eq_some (descriptions : List SteamDescription) (asset : SteamAsset)
    (item : SteamInventoryItem) :
    mergeAsset descriptions asset = some item ↔
      ∃ description, findDescription descriptions asset = some description ∧
        item = mergeItem asset description ∧
        isValidInventoryItem (mergeItem asset description) = true := by
  unfold mergeAsset
  cases h : findDescription descriptions asset with
  | none => simp
  | some d =>
    constructor
    · intro he
      by_cases hv : isValidInventoryItem (mergeItem asset d) = true
      · refine ⟨d, rfl, ?_, hv⟩
        simp only [hv, if_true] at he
        exact (Option.some_inj.mp he).symm
      · exfalso
        simp [hv] at he
    · rintro ⟨d', hd', hi, hv'⟩
      obtain rfl : d = d' := Option.some_inj.mp hd'
      show (if isValidInventoryItem (mergeItem asset d) then some (mergeItem asset d)
        else none) = some item
      rw [if_pos hv', hi]

theorem mergeItems_nil_descriptions : ∀ assets : List SteamAsset, mergeItems assets [] = []
  | [] => rfl
  | a :: al => by
    have ih := mergeItems_nil_descriptions al
    simp only [mergeItems, List.filterMap_cons] at ih ⊢
    rw [show mergeAsset [] a = none from rfl]
    exact ih

theorem filterByAppId_nil (appId : Option String) : filterByAppId appId [] = [] := by
  cases appId with
  | none => rfl
  | some a => by_cases h : a = "" <;> simp [filterByAppId, h]

theorem filterByAppId_unparseable {a : String} (ha : parseIntJs a = none) (hne : a ≠ "")
    (items : List SteamInventoryItem) : filterByAppId (some a) items = [] := by
  show (if a = "" then items else items.filter fun item => intToString item.appid == a) = []
  rw [if_neg hne, List.filter_eq_nil_iff]
  intro item _
  simp only [beq_iff_eq]
  exact intToString_ne_unparseable ha _

theorem itemLE_of_tie {a b : SteamInventoryItem}
    (h : (hasNameColor a = true ∧ hasNameColor b = true ∧
          itemNameColor a = itemNameColor b) ∨
         (hasNameColor a = false ∧ hasNameColor b = false ∧ a.name = b.name)) :
    itemLE a b = true := by
  rw [itemLE_eq_true]
  rcases h with ⟨ha, hb, he⟩ | ⟨ha, hb, he⟩
  · rw [compareItems_both ha hb, he]
    have := (localeCompare_eq_zero (itemNameColor b) (itemNameColor b)).mpr rfl
    omega
  · rw [compareItems_none ha hb, he]
    have := (localeCompare_eq_zero b.name b.name).mpr rfl
    omega

theorem getInventoryAppId_of_unparseable {a : String} (h₁ : a ≠ "")
    (h₂ : parseIntJs a = none) : getInventoryAppId (some a) = "753" := by
  have h730 : a ≠ "730" := fun e => by rw [e] at h₂; exact absurd h₂ (by decide)
  have h570 : a ≠ "570" := fun e => by rw [e] at h₂; exact absurd h₂ (by decide)
  have h440 : a ≠ "440" := fun e => by rw [e] at h₂; exact absurd h₂ (by decide)
  show (if a = "" then "753"
    else if a = "730" || a = "570" || a = "440" then a
    else match parseIntJs a with | none => "753" | some _ => a) = "753"
  rw [if_neg h₁, if_neg (by simp [h730, h570, h440]), h₂]

theorem getContextId_of_unparseable {a : String} (h₁ : a ≠ "")
    (h₂ : parseIntJs a = none) : getContextId (some a) = "2" := by
  have h753 : a ≠ "753" := fun e => by rw [e] at h₂; exact absurd h₂ (by decide)
  show (if a = "" || a = "753" then "6" else "2") = "2"
  rw [if_neg (by simp [h₁, h753])]

theorem pageGreaterThanOne_iff (page : Option Int) :
    pageGreaterThanOne page = true ↔ ∃ p, page = some p ∧ 1 < p := by
  cases page with
  | none => simp [pageGreaterThanOne]
  | some p => simp [pageGreaterThanOne]

theorem buildInventoryUrl_start (steamId iApp ctx : String) (limit page : Option Int)
    (cursor : Option String) :
    (buildInventoryUrl steamId iApp ctx limit page cursor).start_assetid =
      if pageGreaterThanOne page then
        match cursor with
        | some s => if s = "" then none else some s
        | none => none
      else none := rfl

theorem handleGET_success (parseSession : String → Except String SteamUserData)
    (validateSteamSession : SteamUserData → Bool) (isDev : Bool)
    (req : InventoryRequest) {cookieValue steamId : String}
    {userData : SteamUserData} (data : InventoryData)
    (h₁ : req.steam_session = some cookieValue) (h₂ : cookieValue ≠ "")
    (h₃ : parseSession cookieValue = .ok userData)
    (h₄ : validateSteamSession userData = true)
    (h₅ : resolveSteamId req userData = some steamId)
    (h₆ : data.error = none) :
    handleGET parseSession validateSteamSession isDev req (.ok data) =
      (.ok (buildSuccessBody data req.appid (getInventoryAppId req.appid)
          (getContextId req.appid) (parseIntJs (jsOrDefault req.page "1"))
          (jsMin100 (parseIntJs (jsOrDefault req.limit "100"))))
        "s-maxage=300, stale-while-revalidate" (cacheTagsFor steamId req.appid),
       some (buildInventoryUrl steamId (getInventoryAppId req.appid)
         (getContextId req.appid) (jsMin100 (parseIntJs (jsOrDefault req.limit "100")))
         (parseIntJs (jsOrDefault req.page "1")) req.start_assetid)) := by
  simp [handleGET, jsTruthyStr, h₁, h₂, h₃, h₄, h₅, h₆]

/-- C1: an item is in the merged output list exactly when some raw asset has
a first matching description (equal `classid` and `instanceid`), the item is
the merge of the two, and the merged item passes the full required-field
validation; hence no partially-populated item is ever emitted. -/
theorem mergeItems_mem_iff_valid (assets : List SteamAsset)
    (descriptions : List SteamDescription) (item : SteamInventoryItem) :
    item ∈ mergeItems assets descriptions ↔
      ∃ asset ∈ assets, ∃ description,
        findDescription descriptions asset = some description ∧
        item = mergeItem asset description ∧
        isValidInventoryItem (mergeItem asset description) = true := by
  unfold mergeItems
  rw [List.mem_filterMap]
  constructor
  · rintro ⟨a, ha, hm⟩
    exact ⟨a, ha, (mergeAsset_eq_some descriptions a item).mp hm⟩
  · rintro ⟨a, ha, hd⟩
    exact ⟨a, ha, (mergeAsset_eq_some descriptions a item).mpr hd⟩

/-- C2 counterexample: for the unparseable collection id "abc" the resolved
pair is ("753", "2"), not the default community pair ("753", "6") the claim
asserts. -/
theorem resolveIds_unparseable_counterexample :
    getInventoryAppId (some "abc") = "753" ∧ getContextId (some "abc") = "2" ∧
    getContextId (some "abc") ≠ "6" := by decide

/-- C2 amended: for every non-empty caller-supplied collection id that does
not parse as an integer, the resolution returns catalog id "753" together
with the game-items partition id "2" (not the community partition id "6"). -/
theorem resolveIds_unparseable_amended (a : String) (h₁ : a ≠ "")
    (h₂ : parseIntJs a = none) :
    getInventoryAppId (some a) = "753" ∧ getContextId (some a) = "2" :=
  ⟨getInventoryAppId_of_unparseable h₁ h₂, getContextId_of_unparseable h₁ h₂⟩

/-- Witness for C2's amended claim at the concrete input "abc". -/
theorem resolveIds_unparseable_amended_witness :
    getInventoryAppId (some "abc") = "753" ∧ getContextId (some "abc") = "2" :=
  resolveIds_unparseable_amended "abc" (by decide) (by decide)

/-- C3: the comparator puts an item with a rarity color before one without,
orders two colored items by descending lexicographic color comparison, and
orders two colorless items by ascending name; concretely, the "Legendary"
item sorts before the "Common" one. -/
theorem compareItems_rarity_order :
    (∀ a b : SteamInventoryItem,
      (hasNameColor a = true ∧ hasNameColor b = false → compareItems a b = -1) ∧
      (hasNameColor a = false ∧ hasNameColor b = true → compareItems a b = 1) ∧
      (hasNameColor a = true ∧ hasNameColor b = true →
        ((compareItems a b < 0 ↔ strLt (itemNameColor b) (itemNameColor a) = true) ∧
         (compareItems a b = 0 ↔ itemNameColor a = itemNameColor b))) ∧
      (hasNameColor a = false ∧ hasNameColor b = false →
        ((compareItems a b < 0 ↔ strLt a.name b.name = true) ∧
         (compareItems a b = 0 ↔ a.name = b.name)))) ∧
    compareItems legendaryExampleItem commonExampleItem = -1 ∧
    sortItems [commonExampleItem, legendaryExampleItem] =
      [legendaryExampleItem, commonExampleItem] := by
  refine ⟨fun a b => ⟨?_, ?_, ?_, ?_⟩, by decide, by decide⟩
  · rintro ⟨ha, hb⟩; exact compareItems_left ha hb
  · rintro ⟨ha, hb⟩; exact compareItems_right ha hb
  · rintro ⟨ha, hb⟩
    rw [compareItems_both ha hb]
    refine ⟨localeCompare_neg _ _, ?_⟩
    rw [localeCompare_eq_zero]
    exact eq_comm
  · rintro ⟨ha, hb⟩
    rw [compareItems_none ha hb]
    exact ⟨localeCompare_neg _ _, localeCompare_eq_zero _ _⟩

/-- C4: an asset with no matching description contributes nothing to the
merged output (a whole list of unmatched assets reconciles to the empty
list), and in the concrete scenario of one asset with an empty description
list the handler still succeeds with an empty items list and zero total. -/
theorem reconcile_unmatched_dropped_and_success :
    (∀ (descriptions : List SteamDescription) (asset : SteamAsset),
      findDescription descriptions asset = none → mergeAsset descriptions asset = none) ∧
    (∀ (assets : List SteamAsset) (descriptions : List SteamDescription),
      (∀ asset ∈ assets, findDescription descriptions asset = none) →
      mergeItems assets descriptions = []) ∧
    (handleGET stubParse stubValidate false stubRequest
        (.ok oneAssetNoDescriptionsData)).1 =
      .ok { success := true, items := [], total_count := 0, page := some 1,
            limit := some 100, total_pages := some 0, has_more := none,
            next_start_asset_id := none, app_id := "753", context_id := "6" }
        "s-maxage=300, stale-while-revalidate" "user-76561197960287930-inventory" := by
  refine ⟨?_, ?_, by decide⟩
  · intro descriptions asset h
    unfold mergeAsset
    rw [h]
  · intro assets descriptions h
    unfold mergeItems
    rw [List.filterMap_eq_nil_iff]
    intro a ha
    unfold mergeAsset
    rw [h a ha]

/-- C5: with no session cookie (or an empty one) the handler answers 401
"Unauthorized" without fetching, and with a parsed session the validator
rejects it answers 401 "Invalid session" without fetching. -/
theorem auth_failure_401_no_upstream :
    (∀ (parseSession : String → Except String SteamUserData)
       (validateSteamSession : SteamUserData → Bool) (isDev : Bool)
       (req : InventoryRequest) (upstream : FetchOutcome),
      req.steam_session = none ∨ req.steam_session = some "" →
      handleGET parseSession validateSteamSession isDev req upstream =
        (.simpleError 401 "Unauthorized", none)) ∧
    (∀ (parseSession : String → Except String SteamUserData)
       (validateSteamSession : SteamUserData → Bool) (isDev : Bool)
       (req : InventoryRequest) (upstream : FetchOutcome)
       (cookieValue : String) (userData : SteamUserData),
      req.steam_session = some cookieValue → cookieValue ≠ "" →
      parseSession cookieValue = .ok userData →
      validateSteamSession userData = false →
      handleGET parseSession validateSteamSession isDev req upstream =
        (.simpleError 401 "Invalid session", none)) := by
  constructor
  · rintro p v dev req up (h | h) <;> simp [handleGET, h]
  · intro p v dev req up cv u h1 h2 h3 h4
    simp [handleGET, h1, h2, h3, h4]

/-- C6 counterexample: an upstream 2xx body whose error field holds the
empty string is falsy under the source's truthiness test, so the handler
proceeds to the 200 success envelope instead of the claimed 500. -/
theorem empty_error_field_success_counterexample :
    (handleGET stubParse stubValidate true stubRequest (.ok emptyErrorFieldData)).1 =
      .ok allAbsentExpectedBody "s-maxage=300, stale-while-revalidate"
        "user-76561197960287930-inventory" ∧
    ((handleGET stubParse stubValidate true stubRequest
      (.ok emptyErrorFieldData)).1).status = 200 ∧
    ((handleGET stubParse stubValidate true stubRequest
      (.ok emptyErrorFieldData)).1).status ≠ 500 := by decide

/-- C6 amended: a 2xx upstream body carrying a non-empty error field makes
the handler answer HTTP 500 with the generic error envelope, the upstream
message in `details` only in development mode, empty items, zero count and
Cache-Control no-store. -/
theorem upstream_error_maps_to_500
    (parseSession : String → Except String SteamUserData)
    (validateSteamSession : SteamUserData → Bool) (isDev : Bool)
    (req : InventoryRequest) (cookieValue steamId message : String)
    (userData : SteamUserData) (data : InventoryData)
    (h₁ : req.steam_session = some cookieValue) (h₂ : cookieValue ≠ "")
    (h₃ : parseSession cookieValue = .ok userData)
    (h₄ : validateSteamSession userData = true)
    (h₅ : resolveSteamId req userData = some steamId)
    (h₆ : data.error = some message) (h₇ : message ≠ "") :
    (handleGET parseSession validateSteamSession isDev req (.ok data)).1 =
      .serverError
        { success := false, error := "Failed to fetch inventory",
          details := if isDev then some ("Steam API error: " ++ message) else none,
          items := [], total_count := 0 } "no-store" ∧
    ((handleGET parseSession validateSteamSession isDev req (.ok data)).1).status =
      500 := by
  have hmain : (handleGET parseSession validateSteamSession isDev req (.ok data)).1 =
      .serverError
        { success := false, error := "Failed to fetch inventory",
          details := if isDev then some ("Steam API error: " ++ message) else none,
          items := [], total_count := 0 } "no-store" := by
    simp [handleGET, errorResponse, jsTruthyStr, h₁, h₂, h₃, h₄, h₅, h₆, h₇]
  exact ⟨hmain, by rw [hmain]; rfl⟩

/-- Witness for C6's amended claim at the specification's "Profile is
private" scenario in development mode. -/
theorem upstream_error_maps_to_500_witness :
    (handleGET stubParse stubValidate true stubRequest
      (.ok { error := some "Profile is private", assets := none, descriptions := none,
             total_inventory_count := none, more_items := none,
             last_assetid := none })).1 =
      .serverError
        { success := false, error := "Failed to fetch inventory",
          details := some "Steam API error: Profile is private",
          items := [], total_count := 0 } "no-store" ∧
    ((handleGET stubParse stubValidate true stubRequest
      (.ok { error := some "Profile is private", assets := none, descriptions := none,
             total_inventory_count := none, more_items := none,
             last_assetid := none })).1).status = 500 :=
  upstream_error_maps_to_500 stubParse stubValidate true stubRequest "session"
    "76561197960287930" "Profile is private" { steamid := some "76561197960287930" }
    { error := some "Profile is private", assets := none, descriptions := none,
      total_inventory_count := none, more_items := none, last_assetid := none }
    rfl (by decide) rfl rfl rfl rfl (by decide)

/-- C7 counterexample: on an upstream page with every optional field absent
the envelope carries `has_more` as absent (none), not as the value false the
claim asserts the defaulting produces. -/
theorem absent_flags_not_defaulted_counterexample :
    (handleGET stubParse stubValidate false stubRequest (.ok allAbsentData)).1 =
      .ok allAbsentExpectedBody "s-maxage=300, stale-while-revalidate"
        "user-76561197960287930-inventory" ∧
    allAbsentExpectedBody.has_more = none ∧
    allAbsentExpectedBody.has_more ≠ some false ∧
    allAbsentExpectedBody.next_start_asset_id = none := by decide

/-- C7 amended: an absent asset array, description array or total-count field
defaults to empty-array / empty-array / 0 (so the items list is empty and the
count zero), while `more_items` and `last_assetid` are passed through to the
envelope unchanged — an absent flag stays absent instead of defaulting to
false or null. -/
theorem raw_page_defaulting_amended :
    (∀ (data : InventoryData) (appId : Option String) (iApp ctx : String)
       (page limit : Option Int), data.assets = none →
      (buildSuccessBody data appId iApp ctx page limit).items = []) ∧
    (∀ (data : InventoryData) (appId : Option String) (iApp ctx : String)
       (page limit : Option Int), data.descriptions = none →
      (buildSuccessBody data appId iApp ctx page limit).items = []) ∧
    (∀ (data : InventoryData) (appId : Option String) (iApp ctx : String)
       (page limit : Option Int), data.total_inventory_count = none →
      (buildSuccessBody data appId iApp ctx page limit).total_count = 0) ∧
    (∀ (data : InventoryData) (appId : Option String) (iApp ctx : String)
       (page limit : Option Int),
      (buildSuccessBody data appId iApp ctx page limit).has_more = data.more_items ∧
      (buildSuccessBody data appId iApp ctx page limit).next_start_asset_id =
        data.last_assetid) := by
  refine ⟨?_, ?_, ?_, ?_⟩
  · intro data appId iApp ctx page limit h
    simp [buildSuccessBody, h, mergeItems, filterByAppId_nil, sortItems, stableSort]
  · intro data appId iApp ctx page limit h
    simp [buildSuccessBody, h, mergeItems_nil_descriptions, filterByAppId_nil,
      sortItems, stableSort]
  · intro data appId iApp ctx page limit h
    simp [buildSuccessBody, h]
  · intro data appId iApp ctx page limit
    exact ⟨rfl, rfl⟩

/-- C8 counterexample: at page 2 with a supplied but empty cursor value the
outbound URL carries no start marker, contradicting the claimed "if and only
if the caller supplied a cursor value". -/
theorem start_marker_empty_cursor_counterexample :
    (buildInventoryUrl "76561197960287930" "753" "6" (some 100) (some 2)
      (some "")).start_assetid = none ∧
    (buildInventoryUrl "76561197960287930" "753" "6" (some 100) (some 2)
      (some "")).start_assetid ≠ some "" := by decide

/-- C8 amended: the outbound URL carries start marker s exactly when the
parsed page number exceeds 1 and the caller supplied the non-empty cursor s;
page 2 with cursor "999" carries "999", and page 1 never carries a marker. -/
theorem start_marker_iff_amended :
    (∀ (steamId iApp ctx : String) (limit page : Option Int)
       (cursor : Option String) (s : String),
      (buildInventoryUrl steamId iApp ctx limit page cursor).start_assetid = some s ↔
        (∃ p, page = some p ∧ 1 < p) ∧ cursor = some s ∧ s ≠ "") ∧
    (buildInventoryUrl "76561197960287930" "753" "6" (some 100) (some 2)
      (some "999")).start_assetid = some "999" ∧
    (∀ (steamId iApp ctx : String) (limit : Option Int) (cursor : Option String),
      (buildInventoryUrl steamId iApp ctx limit (some 1) cursor).start_assetid =
        none) := by
  refine ⟨?_, by decide, ?_⟩
  · intro steamId iApp ctx limit page cursor s
    rw [buildInventoryUrl_start, ← pageGreaterThanOne_iff]
    by_cases hp : pageGreaterThanOne page = true
    · rw [if_pos hp]
      cases cursor with
      | none => simp [hp]
      | some t =>
        by_cases ht : t = ""
        · subst ht
          constructor
          · intro h
            simp at h
          · rintro ⟨_, he, hne⟩
            exact absurd (Option.some_inj.mp he).symm hne
        · simp [hp, ht]
          intro h
          rw [← h]
          exact ht
    · rw [if_neg hp]
      simp [hp]
  · intro steamId iApp ctx limit cursor
    rw [buildInventoryUrl_start]
    rw [if_neg (by simp [pageGreaterThanOne])]

/-- C9: the sort is idempotent (re-sorting a sorted list changes nothing),
and any two items the comparator ties — same rarity color, or no colors and
equal names — keep their original relative order. -/
theorem sortItems_idempotent_and_stable :
    (∀ items : List SteamInventoryItem, sortItems (sortItems items) = sortItems items) ∧
    (∀ (items : List SteamInventoryItem) (a b : SteamInventoryItem),
      ((hasNameColor a = true ∧ hasNameColor b = true ∧
        itemNameColor a = itemNameColor b) ∨
       (hasNameColor a = false ∧ hasNameColor b = false ∧ a.name = b.name)) →
      [a, b].Sublist items → [a, b].Sublist (sortItems items)) := by
  constructor
  · intro items
    exact stableSort_idem itemLE_trans itemLE_total items
  · intro items a b htie hsub
    exact pair_sublist_stableSort (itemLE_of_tie htie) hsub

/-- C10: whenever the collection-filter parameter is a non-empty string that
does not parse as an integer, the handler fetches the default catalog "753"
partition "2" but returns an empty items list, because the filter compares
each item's numeric appid rendered as a decimal string against the raw
unparseable parameter. -/
theorem unparseable_filter_empty_items
    (parseSession : String → Except String SteamUserData)
    (validateSteamSession : SteamUserData → Bool) (isDev : Bool)
    (req : InventoryRequest) (cookieValue steamId a : String)
    (userData : SteamUserData) (data : InventoryData)
    (h₁ : req.steam_session = some cookieValue) (h₂ : cookieValue ≠ "")
    (h₃ : parseSession cookieValue = .ok userData)
    (h₄ : validateSteamSession userData = true)
    (h₅ : resolveSteamId req userData = some steamId)
    (h₆ : req.appid = some a) (h₇ : a ≠ "") (h₈ : parseIntJs a = none)
    (h₉ : data.error = none) :
    ∃ (body : SuccessBody) (cacheControl cacheTags : String),
      (handleGET parseSession validateSteamSession isDev req (.ok data)).1 =
        .ok body cacheControl cacheTags ∧
      body.items = [] ∧ body.app_id = "753" ∧ body.context_id = "2" := by
  refine ⟨buildSuccessBody data req.appid (getInventoryAppId req.appid)
      (getContextId req.appid) (parseIntJs (jsOrDefault req.page "1"))
      (jsMin100 (parseIntJs (jsOrDefault req.limit "100"))),
    "s-maxage=300, stale-while-revalidate", cacheTagsFor steamId req.appid,
    ?_, ?_, ?_, ?_⟩
  · rw [handleGET_success parseSession validateSteamSession isDev req data h₁ h₂ h₃ h₄
      h₅ h₉]
  · simp [buildSuccessBody, h₆, filterByAppId_unparseable h₈ h₇, sortItems, stableSort]
  · simp [buildSuccessBody, h₆, getInventoryAppId_of_unparseable h₇ h₈]
  · simp [buildSuccessBody, h₆, getContextId_of_unparseable h₇ h₈]

/-- Witness for C10 at the concrete unparseable filter "abc". -/
theorem unparseable_filter_empty_items_witness :
    ∃ (body : SuccessBody) (cacheControl cacheTags : String),
      (handleGET stubParse stubValidate false
        { steam_session := some "session", steamid := none, page := none, limit := none,
          appid := some "abc", start_assetid := none }
        (.ok oneAssetNoDescriptionsData)).1 =
        .ok body cacheControl cacheTags ∧
      body.items = [] ∧ body.app_id = "753" ∧ body.context_id = "2" :=
  unparseable_filter_empty_items stubParse stubValidate false
    { steam_session := some "session", steamid := none, page := none, limit := none,
      appid := some "abc", start_assetid := none }
    "session" "76561197960287930" "abc" { steamid := some "76561197960287930" }
    oneAssetNoDescriptionsData rfl (by decide) rfl rfl rfl rfl (by decide) (by decide) rfl
